import Mathlib

/-!
Verification of the 2D_GLFW repository: two minimal OpenGL/GLFW bootstrap
programs, embedded shallowly.

`Src` models `src/main.cpp` (the "Snek" quad-drawing variant) and `Game`
models `Game/main.cpp` (the shader-drawing variant).  External collaborators
(GLFW, GLAD, the GL driver) are modelled by an environment recording the
outcome of each fallible external call plus an oracle for the value of the
window's should-close flag at each loop-condition check; the program itself
is a function from that environment (and a fuel bound for the render loop)
to a trace of observable effects together with the process exit code.
Machine floats in the source are represented by exact rationals; all the
literals involved (0.0, 0.25, 0.4, 1.0, ...) are only compared for equality
and distinctness, never rounded.
-/

-- GLFW and OpenGL constants, numeric values as in GLFW/glfw3.h and glad.h.
def GLFW_PRESS : Int := 1

def GLFW_RELEASE : Int := 0

def GLFW_REPEAT : Int := 2

def GLFW_KEY_ESCAPE : Int := 256

def GLFW_KEY_RIGHT : Int := 262

def GLFW_KEY_LEFT : Int := 263

def GLFW_KEY_DOWN : Int := 264

def GLFW_KEY_UP : Int := 265

def GL_TRIANGLES : Int := 4

def GL_ARRAY_BUFFER : Int := 34962

def GL_ELEMENT_ARRAY_BUFFER : Int := 34963

def EXIT_SUCCESS : Int := 0

def EXIT_FAILURE : Int := 1

/-- An RGBA clear-color value (the four float arguments of glClearColor). -/
structure Color where
  r : Rat
  g : Rat
  b : Rat
  a : Rat
deriving DecidableEq, Repr

/-- The mutable state visible to the GLFW callbacks: the pending clear
color, the window's should-close flag, and the current viewport
(x, y, width, height). -/
structure GLState where
  clearColor : Color
  shouldClose : Bool
  viewport : Int × Int × Int × Int
deriving DecidableEq, Repr

/-- The GPU-side objects created by the shader variant. -/
inductive Res where
  | vertexShader
  | fragmentShader
  | program
  | vao
  | vbo
  | ebo
deriving DecidableEq, Repr

/-- Observable effects of a program run: log lines on stdout/stderr,
resource creation and release, GL commands, buffer swaps, event polling and
GLFW shutdown. -/
inductive Effect where
  | logOut (msg : String)
  | logErr (msg : String)
  | createWindowCall (width height : Int) (title : String)
  | createRes (r : Res)
  | releaseRes (r : Res)
  | clearCall
  | immediateQuadCall
  | useProgramCall
  | bindVAOCall
  | bindBufferCall (target : Int)
  | bufferDataCall (target : Int) (sizeBytes : Nat)
  | vertexAttribCall (index size stride : Int)
  | drawArraysCall (mode first count : Int)
  | swapCall
  | pollCall
  | terminateCall
deriving DecidableEq, Repr

/-- Messages printed to standard output, in order. -/
def outMsgs (t : List Effect) : List String :=
  t.filterMap fun e =>
    match e with
    | .logOut m => some m
    | _ => none

/-- Messages printed to standard error, in order. -/
def errMsgs (t : List Effect) : List String :=
  t.filterMap fun e =>
    match e with
    | .logErr m => some m
    | _ => none

/-- Number of glClear calls in a trace. -/
def clearCount (t : List Effect) : Nat :=
  t.countP fun e =>
    match e with
    | .clearCall => true
    | _ => false

/-- Number of draw commands in a trace (glDrawArrays calls and the
immediate-mode glBegin/glEnd quad of the Snek variant). -/
def drawCount (t : List Effect) : Nat :=
  t.countP fun e =>
    match e with
    | .drawArraysCall _ _ _ => true
    | .immediateQuadCall => true
    | _ => false

/-- Whether this resource is one of the four GPU objects that survive to
shutdown (VAO, VBO, EBO, shader program); the two shader objects are
deleted during setup. -/
def Res.survivesSetup : Res → Bool
  | .vao => true
  | .vbo => true
  | .ebo => true
  | .program => true
  | _ => false

/-- Creation events of the four long-lived GPU resources, in order. -/
def gpuCreationsOf (t : List Effect) : List Res :=
  t.filterMap fun e =>
    match e with
    | .createRes r => if r.survivesSetup then some r else none
    | _ => none

/-- Release events of the four long-lived GPU resources, in order. -/
def gpuReleasesOf (t : List Effect) : List Res :=
  t.filterMap fun e =>
    match e with
    | .releaseRes r => if r.survivesSetup then some r else none
    | _ => none

/-- The shared error_callback of both variants:
fprintf(stderr, "Error: %s\n", description). -/
def error_callback (error : Int) (description : String) : Effect :=
  .logErr ("Error: " ++ description)

namespace Src

/-- key_callback of src/main.cpp: escape press requests close; arrow-key
presses install fixed clear colors (1,0,0,0), (0,1,0,0), (0,0,1,0),
(1,1,0,0); every other key/action combination falls through all four ifs. -/
def key_callback (s : GLState) (key scancode action mods : Int) : GLState :=
  let s := if key = GLFW_KEY_ESCAPE ∧ action = GLFW_PRESS then { s with shouldClose := true } else s
  let s := if key = GLFW_KEY_UP ∧ action = GLFW_PRESS then { s with clearColor := { r := 1, g := 0, b := 0, a := 0 } } else s
  let s := if key = GLFW_KEY_DOWN ∧ action = GLFW_PRESS then { s with clearColor := { r := 0, g := 1, b := 0, a := 0 } } else s
  let s := if key = GLFW_KEY_LEFT ∧ action = GLFW_PRESS then { s with clearColor := { r := 0, g := 0, b := 1, a := 0 } } else s
  let s := if key = GLFW_KEY_RIGHT ∧ action = GLFW_PRESS then { s with clearColor := { r := 1, g := 1, b := 0, a := 0 } } else s
  s

/-- framebuffer_size_callback of src/main.cpp: glViewport(0, 0, width, height). -/
def framebuffer_size_callback (s : GLState) (width height : Int) : GLState :=
  { s with viewport := (0, 0, width, height) }

/-- Environment of a run of the Snek variant: outcomes of the three
fallible initialization calls and the value glfwWindowShouldClose returns
at the n-th loop-condition check. -/
structure Env where
  glfwInitOk : Bool
  windowOk : Bool
  gladOk : Bool
  shouldClose : Nat → Bool

/-- One iteration of the Snek render loop: glClear, the immediate-mode
GL_QUADS block, glfwSwapBuffers, glfwPollEvents. -/
def loopBody : List Effect :=
  [.clearCall, .immediateQuadCall, .swapCall, .pollCall]

/-- The while(!glfwWindowShouldClose(window)) loop, with fuel bounding the
number of loop-condition checks; returns the trace the loop emits, or none
if the fuel runs out before the flag is seen true. -/
def loop (sc : Nat → Bool) : Nat → Nat → Option (List Effect)
  | _, 0 => none
  | n, fuel + 1 =>
    if sc n then some []
    else (loop sc (n + 1) fuel).map (fun rest => loopBody ++ rest)

/-- main of src/main.cpp.  glfwInit failure prints to stdout and returns
EXIT_FAILURE; glfwCreateWindow failure logs through error_callback,
terminates GLFW and exits EXIT_FAILURE; gladLoadGLLoader failure logs
through error_callback and exits EXIT_FAILURE; otherwise the render loop
runs until the should-close flag is seen, then glfwTerminate and
EXIT_SUCCESS. -/
def main (env : Env) (fuel : Nat) : Option (List Effect × Int) :=
  if env.glfwInitOk = false then
    some ([.logOut "Unable to initialize GLFW!"], EXIT_FAILURE)
  else if env.windowOk = false then
    some ([.createWindowCall 640 480 "Snek",
           error_callback 404 "Window or OpenGL context creation failed!",
           .terminateCall], EXIT_FAILURE)
  else if env.gladOk = false then
    some ([.createWindowCall 640 480 "Snek",
           error_callback 400 "Failed to initialize GLAD"], EXIT_FAILURE)
  else
    match loop env.shouldClose 0 fuel with
    | none => none
    | some lt =>
      some ([.createWindowCall 640 480 "Snek"] ++ lt ++ [.terminateCall], EXIT_SUCCESS)

end Src

namespace Game

def SCR_WIDTH : Int := 640

def SCR_HEIGHT : Int := 480

/-- key_callback of Game/main.cpp: same shape as the Snek variant but with
the 0.4-based colors (0.4,0,0,0), (0,0.4,0,0), (0,0,0.4,0), (0.4,0.4,0,0). -/
def key_callback (s : GLState) (key scancode action mods : Int) : GLState :=
  let s := if key = GLFW_KEY_ESCAPE ∧ action = GLFW_PRESS then { s with shouldClose := true } else s
  let s := if key = GLFW_KEY_UP ∧ action = GLFW_PRESS then { s with clearColor := { r := 2/5, g := 0, b := 0, a := 0 } } else s
  let s := if key = GLFW_KEY_DOWN ∧ action = GLFW_PRESS then { s with clearColor := { r := 0, g := 2/5, b := 0, a := 0 } } else s
  let s := if key = GLFW_KEY_LEFT ∧ action = GLFW_PRESS then { s with clearColor := { r := 0, g := 0, b := 2/5, a := 0 } } else s
  let s := if key = GLFW_KEY_RIGHT ∧ action = GLFW_PRESS then { s with clearColor := { r := 2/5, g := 2/5, b := 0, a := 0 } } else s
  s

/-- framebuffer_size_callback of Game/main.cpp: glViewport(0, 0, width, height). -/
def framebuffer_size_callback (s : GLState) (width height : Int) : GLState :=
  { s with viewport := (0, 0, width, height) }

/-- The 27 floats of the vertices array (9 vertices, 3 coordinates each). -/
def vertices : List Rat :=
  [0, 1/4, 0,
   -(3/20), -(1/4), 0,
   3/20, -(1/4), 0,
   3/10, 1/4, 0,
   3/20, -(1/4), 0,
   9/20, -(1/4), 0,
   3/20, 3/4, 0,
   0, 1/4, 0,
   3/10, 1/4, 0]

/-- The indices array passed to the element buffer. -/
def indices : List Nat := [0, 1, 3, 1, 3, 2]

/-- sizeof(float) on the target platform. -/
def sizeofFloat : Nat := 4

/-- sizeof(vertices): the byte size uploaded by glBufferData for the VBO. -/
def verticesSizeBytes : Nat := sizeofFloat * vertices.length

/-- sizeof(indices): the byte size uploaded by glBufferData for the EBO. -/
def indicesSizeBytes : Nat := sizeofFloat * indices.length

/-- The attribute stride of glVertexAttribPointer: 3 * sizeof(float). -/
def attributeStride : Nat := 3 * sizeofFloat

/-- The vertex count of the per-frame glDrawArrays(GL_TRIANGLES, 0, 9). -/
def drawVertexCount : Nat := 9

/-- Environment of a run of the shader variant: the three initialization
outcomes, the GL_COMPILE_STATUS of the two shaders, the GL_LINK_STATUS of
the program, and the should-close oracle. -/
structure Env where
  glfwInitOk : Bool
  windowOk : Bool
  gladOk : Bool
  vertexCompileOk : Bool
  fragmentCompileOk : Bool
  linkOk : Bool
  shouldClose : Nat → Bool

/-- The if (!success) diagnostic after a compile/link status query: one
std::cout line when the status is failure, nothing otherwise.  The program
does not return or exit in either case. -/
def statusLog (ok : Bool) (msg : String) : List Effect :=
  if ok then [] else [.logOut msg]

/-- The shader setup section: create and compile both shaders (logging on
failure), create and link the program (logging on failure), then delete the
two shader objects. -/
def shaderSetup (env : Env) : List Effect :=
  [.createRes .vertexShader]
    ++ statusLog env.vertexCompileOk "ERROR::SHADER::VERTEX::COMPILATION_FAILED"
    ++ [.createRes .fragmentShader]
    ++ statusLog env.fragmentCompileOk "ERROR::SHADER::FRAGMENT::COMPILATION_FAILED"
    ++ [.createRes .program]
    ++ statusLog env.linkOk "ERROR::SHADER::PROGRAM::LINKING_FAILED"
    ++ [.releaseRes .vertexShader, .releaseRes .fragmentShader]

/-- The buffer setup section: generate VAO, VBO and EBO, upload the vertex
and index data, configure attribute 0 with size 3 and stride
3 * sizeof(float). -/
def bufferSetup : List Effect :=
  [.createRes .vao, .createRes .vbo, .createRes .ebo,
   .bindBufferCall GL_ARRAY_BUFFER,
   .bufferDataCall GL_ARRAY_BUFFER verticesSizeBytes,
   .bindBufferCall GL_ELEMENT_ARRAY_BUFFER,
   .bufferDataCall GL_ELEMENT_ARRAY_BUFFER indicesSizeBytes,
   .vertexAttribCall 0 3 12]

/-- One iteration of the shader-variant render loop: glClear, glUseProgram,
glBindVertexArray, glDrawArrays(GL_TRIANGLES, 0, 9), glfwSwapBuffers,
glfwPollEvents. -/
def gameLoopBody : List Effect :=
  [.clearCall, .useProgramCall, .bindVAOCall,
   .drawArraysCall GL_TRIANGLES 0 (Int.ofNat drawVertexCount),
   .swapCall, .pollCall]

/-- The while(!glfwWindowShouldClose(window)) loop of the shader variant. -/
def gameLoop (sc : Nat → Bool) : Nat → Nat → Option (List Effect)
  | _, 0 => none
  | n, fuel + 1 =>
    if sc n then some []
    else (gameLoop sc (n + 1) fuel).map (fun rest => gameLoopBody ++ rest)

/-- The shutdown section after the loop: glDeleteVertexArrays(VAO),
glDeleteBuffers(VBO), glDeleteBuffers(EBO), glDeleteProgram, then
glfwTerminate. -/
def shutdown : List Effect :=
  [.releaseRes .vao, .releaseRes .vbo, .releaseRes .ebo, .releaseRes .program,
   .terminateCall]

/-- main of Game/main.cpp.  glfwInit failure prints to stdout and returns
EXIT_FAILURE; glfwCreateWindow failure logs through error_callback,
terminates GLFW and returns -1; gladLoadGLLoader failure logs through
error_callback and exits EXIT_FAILURE.  Compile and link failures only log
(see shaderSetup); the run then proceeds through buffer setup, the render
loop, and the shutdown section, returning 0. -/
def main (env : Env) (fuel : Nat) : Option (List Effect × Int) :=
  if env.glfwInitOk = false then
    some ([.logOut "Unable to initialize GLFW!"], EXIT_FAILURE)
  else if env.windowOk = false then
    some ([.createWindowCall SCR_WIDTH SCR_HEIGHT "2D Game",
           error_callback 404 "Window or OpenGL context creation failed!",
           .terminateCall], -1)
  else if env.gladOk = false then
    some ([.createWindowCall SCR_WIDTH SCR_HEIGHT "2D Game",
           error_callback 400 "Failed to initialize GLAD"], EXIT_FAILURE)
  else
    match gameLoop env.shouldClose 0 fuel with
    | none => none
    | some lt =>
      some ([.createWindowCall SCR_WIDTH SCR_HEIGHT "2D Game"]
              ++ shaderSetup env ++ bufferSetup ++ lt ++ shutdown, 0)

end Game

/-- The four arrow keys recognized by both key callbacks. -/
def arrowKeys : List Int := [GLFW_KEY_UP, GLFW_KEY_DOWN, GLFW_KEY_LEFT, GLFW_KEY_RIGHT]

/-- All keys recognized by both key callbacks. -/
def mappedKeys : List Int := GLFW_KEY_ESCAPE :: arrowKeys

/-- A run that logged at least one message, issued no clear or draw command
and stopped with a non-zero exit code. -/
def terminalFailureRun (r : Option (List Effect × Int)) : Prop :=
  ∃ t c, r = some (t, c) ∧ c ≠ 0 ∧ clearCount t = 0 ∧ drawCount t = 0 ∧
    outMsgs t ++ errMsgs t ≠ []

/-- Environment for a Snek run whose window closes before the first frame. -/
def envC4 : Src.Env := ⟨true, true, true, fun _ => true⟩

def esInitFail : Src.Env := ⟨false, true, true, fun _ => true⟩

def esWindowFail : Src.Env := ⟨true, false, true, fun _ => true⟩

def esGladFail : Src.Env := ⟨true, true, false, fun _ => true⟩

def egInitFail : Game.Env := ⟨false, true, true, true, true, true, fun _ => true⟩

def egWindowFail : Game.Env := ⟨true, false, true, true, true, true, fun _ => true⟩

def egGladFail : Game.Env := ⟨true, true, false, true, true, true, fun _ => true⟩

/-- Shader-variant environment in which every shader stage fails but every
initialization step succeeds, and the window closes before the first frame. -/
def egC1 : Game.Env := ⟨true, true, true, false, false, false, fun _ => true⟩

/-- Shader-variant environment in which the vertex shader fails to compile,
everything else succeeds, and the window closes after one frame. -/
def egC1cex : Game.Env := ⟨true, true, true, false, true, true, fun n => decide (1 ≤ n)⟩

/-- Fully successful shader-variant environment whose window closes before
the first frame. -/
def egC3 : Game.Env := ⟨true, true, true, true, true, true, fun _ => true⟩

theorem outMsgs_append (a b : List Effect) :
    outMsgs (a ++ b) = outMsgs a ++ outMsgs b := by
  simp [outMsgs]

theorem errMsgs_append (a b : List Effect) :
    errMsgs (a ++ b) = errMsgs a ++ errMsgs b := by
  simp [errMsgs]

theorem gpuCreationsOf_append (a b : List Effect) :
    gpuCreationsOf (a ++ b) = gpuCreationsOf a ++ gpuCreationsOf b := by
  simp [gpuCreationsOf]

theorem gpuReleasesOf_append (a b : List Effect) :
    gpuReleasesOf (a ++ b) = gpuReleasesOf a ++ gpuReleasesOf b := by
  simp [gpuReleasesOf]

/-- The render loop of the shader variant emits no resource creations or
releases and nothing on the error stream. -/
theorem Game.gameLoop_trace (sc : Nat → Bool) :
    ∀ (fuel n : Nat) (lt : List Effect), Game.gameLoop sc n fuel = some lt →
      gpuCreationsOf lt = [] ∧ gpuReleasesOf lt = [] ∧ errMsgs lt = [] := by
  intro fuel
  induction fuel with
  | zero =>
    intro n lt h
    simp [Game.gameLoop] at h
  | succ m ih =>
    intro n lt h
    rw [Game.gameLoop] at h
    by_cases hsc : sc n
    · rw [if_pos hsc] at h
      obtain rfl : ([] : List Effect) = lt := Option.some.inj h
      exact ⟨rfl, rfl, rfl⟩
    · rw [if_neg hsc, Option.map_eq_some'] at h
      obtain ⟨rest, hr, rfl⟩ := h
      obtain ⟨ih1, ih2, ih3⟩ := ih (n + 1) rest hr
      refine ⟨?_, ?_, ?_⟩
      · rw [gpuCreationsOf_append, ih1]
        decide
      · rw [gpuReleasesOf_append, ih2]
        decide
      · rw [errMsgs_append, ih3]
        decide

/-- Trace facts about the shader setup section: among the four long-lived
GPU resources it creates exactly the program, releases none, writes nothing
to the error stream, and on each failed status check its diagnostic appears
among its standard-output messages. -/
theorem Game.shaderSetup_facts (env : Game.Env) :
    gpuCreationsOf (Game.shaderSetup env) = [Res.program] ∧
    gpuReleasesOf (Game.shaderSetup env) = [] ∧
    errMsgs (Game.shaderSetup env) = [] ∧
    (env.vertexCompileOk = false →
      "ERROR::SHADER::VERTEX::COMPILATION_FAILED" ∈ outMsgs (Game.shaderSetup env)) ∧
    (env.fragmentCompileOk = false →
      "ERROR::SHADER::FRAGMENT::COMPILATION_FAILED" ∈ outMsgs (Game.shaderSetup env)) ∧
    (env.linkOk = false →
      "ERROR::SHADER::PROGRAM::LINKING_FAILED" ∈ outMsgs (Game.shaderSetup env)) := by
  obtain ⟨i, w, g, v, f, l, sc⟩ := env
  cases v <;> cases f <;> cases l <;>
    simp [Game.shaderSetup, Game.statusLog, gpuCreationsOf, gpuReleasesOf, errMsgs,
      outMsgs, Res.survivesSetup]

/-- Claim C6: in both variants a resize event (W,H) sets the viewport to
origin (0,0) and extent (W,H), and after two resize events in sequence the
callback state equals that produced by the most recent event alone (last
write wins). -/
theorem C6_resize_viewport (s : GLState) (w h w2 h2 : Int) :
    (Src.framebuffer_size_callback s w h).viewport = (0, 0, w, h) ∧
    (Game.framebuffer_size_callback s w h).viewport = (0, 0, w, h) ∧
    Src.framebuffer_size_callback (Src.framebuffer_size_callback s w h) w2 h2
      = Src.framebuffer_size_callback s w2 h2 ∧
    Game.framebuffer_size_callback (Game.framebuffer_size_callback s w h) w2 h2
      = Game.framebuffer_size_callback s w2 h2 :=
  ⟨rfl, rfl, rfl, rfl⟩

/-- Claim C7: processing the key-press sequence Up, Down, Right through the
key callback leaves ClearColor equal to the tuple mapped to Right — in both
variants, for every starting state. -/
theorem C7_up_down_right_sequence (s : GLState) :
    (Src.key_callback (Src.key_callback (Src.key_callback s GLFW_KEY_UP 0 GLFW_PRESS 0)
        GLFW_KEY_DOWN 0 GLFW_PRESS 0) GLFW_KEY_RIGHT 0 GLFW_PRESS 0).clearColor
      = { r := 1, g := 1, b := 0, a := 0 } ∧
    (Game.key_callback (Game.key_callback (Game.key_callback s GLFW_KEY_UP 0 GLFW_PRESS 0)
        GLFW_KEY_DOWN 0 GLFW_PRESS 0) GLFW_KEY_RIGHT 0 GLFW_PRESS 0).clearColor
      = { r := 2/5, g := 2/5, b := 0, a := 0 } :=
  ⟨rfl, rfl⟩

/-- Claim C8: the per-frame glDrawArrays(GL_TRIANGLES, 0, 9) of the shader
variant stays within the uploaded vertex buffer: the byte size passed to
glBufferData for the VBO — sizeof(vertices) — is at least the drawn vertex
count times the attribute stride of 3 floats. -/
theorem C8_draw_within_buffer_bounds :
    Effect.bufferDataCall GL_ARRAY_BUFFER Game.verticesSizeBytes ∈ Game.bufferSetup ∧
    Effect.drawArraysCall GL_TRIANGLES 0 (Int.ofNat Game.drawVertexCount) ∈ Game.gameLoopBody ∧
    Game.drawVertexCount * Game.attributeStride ≤ Game.verticesSizeBytes := by
  decide

/-- Claim C10: any ClearColor value the key callback installs (in either
variant, whatever the key and action) has alpha component 0: the callback
either leaves ClearColor untouched or writes a tuple whose alpha is 0. -/
theorem C10_alpha_always_zero (s : GLState) (key scancode action mods : Int) :
    ((Src.key_callback s key scancode action mods).clearColor = s.clearColor ∨
      (Src.key_callback s key scancode action mods).clearColor.a = 0) ∧
    ((Game.key_callback s key scancode action mods).clearColor = s.clearColor ∨
      (Game.key_callback s key scancode action mods).clearColor.a = 0) := by
  constructor
  · simp only [Src.key_callback]
    repeat' split
    all_goals simp
  · simp only [Game.key_callback]
    repeat' split
    all_goals simp

/-- Claim C2: in both variants only the pressed action has any effect
(release and repeat leave the state untouched), a press of escape sets the
close-requested flag, a press of each arrow key installs that key's fixed
RGBA tuple, and a repeated press of the same arrow key is idempotent. -/
theorem C2_key_callback_contract :
    (∀ (s : GLState) (key scancode action mods : Int), action ≠ GLFW_PRESS →
        Src.key_callback s key scancode action mods = s ∧
        Game.key_callback s key scancode action mods = s) ∧
    (∀ s : GLState,
        (Src.key_callback s GLFW_KEY_ESCAPE 0 GLFW_PRESS 0).shouldClose = true ∧
        (Game.key_callback s GLFW_KEY_ESCAPE 0 GLFW_PRESS 0).shouldClose = true) ∧
    (∀ s : GLState,
        (Src.key_callback s GLFW_KEY_UP 0 GLFW_PRESS 0).clearColor = { r := 1, g := 0, b := 0, a := 0 } ∧
        (Src.key_callback s GLFW_KEY_DOWN 0 GLFW_PRESS 0).clearColor = { r := 0, g := 1, b := 0, a := 0 } ∧
        (Src.key_callback s GLFW_KEY_LEFT 0 GLFW_PRESS 0).clearColor = { r := 0, g := 0, b := 1, a := 0 } ∧
        (Src.key_callback s GLFW_KEY_RIGHT 0 GLFW_PRESS 0).clearColor = { r := 1, g := 1, b := 0, a := 0 } ∧
        (Game.key_callback s GLFW_KEY_UP 0 GLFW_PRESS 0).clearColor = { r := 2/5, g := 0, b := 0, a := 0 } ∧
        (Game.key_callback s GLFW_KEY_DOWN 0 GLFW_PRESS 0).clearColor = { r := 0, g := 2/5, b := 0, a := 0 } ∧
        (Game.key_callback s GLFW_KEY_LEFT 0 GLFW_PRESS 0).clearColor = { r := 0, g := 0, b := 2/5, a := 0 } ∧
        (Game.key_callback s GLFW_KEY_RIGHT 0 GLFW_PRESS 0).clearColor = { r := 2/5, g := 2/5, b := 0, a := 0 }) ∧
    (∀ (s : GLState) (key : Int), key ∈ arrowKeys →
        Src.key_callback (Src.key_callback s key 0 GLFW_PRESS 0) key 0 GLFW_PRESS 0
          = Src.key_callback s key 0 GLFW_PRESS 0 ∧
        Game.key_callback (Game.key_callback s key 0 GLFW_PRESS 0) key 0 GLFW_PRESS 0
          = Game.key_callback s key 0 GLFW_PRESS 0) := by
  refine ⟨?_, ?_, ?_, ?_⟩
  · intro s key scancode action mods h
    have hA : ∀ K : Int, ¬(key = K ∧ action = GLFW_PRESS) := fun _ hc => h hc.2
    constructor <;> simp [Src.key_callback, Game.key_callback, hA]
  · intro s
    exact ⟨rfl, rfl⟩
  · intro s
    exact ⟨rfl, rfl, rfl, rfl, rfl, rfl, rfl, rfl⟩
  · intro s key hk
    simp only [arrowKeys, List.mem_cons, List.not_mem_nil, or_false] at hk
    rcases hk with rfl | rfl | rfl | rfl <;> exact ⟨rfl, rfl⟩

/-- Claim C2 witness: instantiation at a concrete state, a repeat-action Up
event, the escape press, the four color mappings, and a double press of
Right. -/
theorem C2_key_callback_contract_witness :
    (Src.key_callback ⟨⟨0, 0, 0, 1⟩, false, (0, 0, 640, 480)⟩ GLFW_KEY_UP 0 GLFW_REPEAT 0
        = ⟨⟨0, 0, 0, 1⟩, false, (0, 0, 640, 480)⟩ ∧
      Game.key_callback ⟨⟨0, 0, 0, 1⟩, false, (0, 0, 640, 480)⟩ GLFW_KEY_UP 0 GLFW_REPEAT 0
        = ⟨⟨0, 0, 0, 1⟩, false, (0, 0, 640, 480)⟩) ∧
    (Src.key_callback ⟨⟨0, 0, 0, 1⟩, false, (0, 0, 640, 480)⟩ GLFW_KEY_ESCAPE 0 GLFW_PRESS 0).shouldClose = true ∧
    (Src.key_callback ⟨⟨0, 0, 0, 1⟩, false, (0, 0, 640, 480)⟩ GLFW_KEY_UP 0 GLFW_PRESS 0).clearColor
      = { r := 1, g := 0, b := 0, a := 0 } ∧
    Src.key_callback
        (Src.key_callback ⟨⟨0, 0, 0, 1⟩, false, (0, 0, 640, 480)⟩ GLFW_KEY_RIGHT 0 GLFW_PRESS 0)
        GLFW_KEY_RIGHT 0 GLFW_PRESS 0
      = Src.key_callback ⟨⟨0, 0, 0, 1⟩, false, (0, 0, 640, 480)⟩ GLFW_KEY_RIGHT 0 GLFW_PRESS 0 :=
  ⟨C2_key_callback_contract.1 ⟨⟨0, 0, 0, 1⟩, false, (0, 0, 640, 480)⟩ GLFW_KEY_UP 0 GLFW_REPEAT 0 (by decide),
   (C2_key_callback_contract.2.1 ⟨⟨0, 0, 0, 1⟩, false, (0, 0, 640, 480)⟩).1,
   (C2_key_callback_contract.2.2.1 ⟨⟨0, 0, 0, 1⟩, false, (0, 0, 640, 480)⟩).1,
   (C2_key_callback_contract.2.2.2 ⟨⟨0, 0, 0, 1⟩, false, (0, 0, 640, 480)⟩ GLFW_KEY_RIGHT (by decide)).1⟩

/-- Claim C9: in both variants, a key event whose key is unmapped or whose
action is not a press leaves the whole callback state unchanged; an escape
press never changes ClearColor; an arrow-key press never changes the
close-requested flag. -/
theorem C9_unmapped_keys_no_effect :
    (∀ (s : GLState) (key scancode action mods : Int),
        key ∉ mappedKeys ∨ action ≠ GLFW_PRESS →
        Src.key_callback s key scancode action mods = s ∧
        Game.key_callback s key scancode action mods = s) ∧
    (∀ s : GLState,
        (Src.key_callback s GLFW_KEY_ESCAPE 0 GLFW_PRESS 0).clearColor = s.clearColor ∧
        (Game.key_callback s GLFW_KEY_ESCAPE 0 GLFW_PRESS 0).clearColor = s.clearColor) ∧
    (∀ (s : GLState) (key : Int), key ∈ arrowKeys →
        (Src.key_callback s key 0 GLFW_PRESS 0).shouldClose = s.shouldClose ∧
        (Game.key_callback s key 0 GLFW_PRESS 0).shouldClose = s.shouldClose) := by
  refine ⟨?_, ?_, ?_⟩
  · intro s key scancode action mods h
    rcases h with hk | ha
    · simp only [mappedKeys, arrowKeys, List.mem_cons, List.not_mem_nil, or_false,
        not_or] at hk
      obtain ⟨h1, h2, h3, h4, h5⟩ := hk
      constructor <;> simp [Src.key_callback, Game.key_callback, h1, h2, h3, h4, h5]
    · have hA : ∀ K : Int, ¬(key = K ∧ action = GLFW_PRESS) := fun _ hc => ha hc.2
      constructor <;> simp [Src.key_callback, Game.key_callback, hA]
  · intro s
    exact ⟨rfl, rfl⟩
  · intro s key hk
    simp only [arrowKeys, List.mem_cons, List.not_mem_nil, or_false] at hk
    rcases hk with rfl | rfl | rfl | rfl <;> exact ⟨rfl, rfl⟩

/-- Claim C9 witness: instantiation at a concrete state: the unmapped key
GLFW_KEY_SPACE (32) pressed, escape pressed, and Left pressed. -/
theorem C9_unmapped_keys_no_effect_witness :
    (Src.key_callback ⟨⟨0, 0, 0, 1⟩, false, (0, 0, 640, 480)⟩ 32 0 GLFW_PRESS 0
        = ⟨⟨0, 0, 0, 1⟩, false, (0, 0, 640, 480)⟩ ∧
      Game.key_callback ⟨⟨0, 0, 0, 1⟩, false, (0, 0, 640, 480)⟩ 32 0 GLFW_PRESS 0
        = ⟨⟨0, 0, 0, 1⟩, false, (0, 0, 640, 480)⟩) ∧
    (Src.key_callback ⟨⟨0, 0, 0, 1⟩, false, (0, 0, 640, 480)⟩ GLFW_KEY_ESCAPE 0 GLFW_PRESS 0).clearColor
      = (⟨⟨0, 0, 0, 1⟩, false, (0, 0, 640, 480)⟩ : GLState).clearColor ∧
    (Src.key_callback ⟨⟨0, 0, 0, 1⟩, false, (0, 0, 640, 480)⟩ GLFW_KEY_LEFT 0 GLFW_PRESS 0).shouldClose
      = (⟨⟨0, 0, 0, 1⟩, false, (0, 0, 640, 480)⟩ : GLState).shouldClose :=
  ⟨C9_unmapped_keys_no_effect.1 ⟨⟨0, 0, 0, 1⟩, false, (0, 0, 640, 480)⟩ 32 0 GLFW_PRESS 0
      (Or.inl (by decide)),
   (C9_unmapped_keys_no_effect.2.1 ⟨⟨0, 0, 0, 1⟩, false, (0, 0, 640, 480)⟩).1,
   (C9_unmapped_keys_no_effect.2.2 ⟨⟨0, 0, 0, 1⟩, false, (0, 0, 640, 480)⟩ GLFW_KEY_LEFT
      (by decide)).1⟩

/-- Claim C4: in the Snek variant (window 640x480, title "Snek"), if the
should-close flag is already true at the first loop-condition check, the
render loop body never executes — the trace contains zero clear calls and
zero draw calls — and the process exits with status EXIT_SUCCESS = 0. -/
theorem C4_immediate_close_no_frames (env : Src.Env) (fuel : Nat)
    (h1 : env.glfwInitOk = true) (h2 : env.windowOk = true) (h3 : env.gladOk = true)
    (h4 : env.shouldClose 0 = true) (h5 : 1 ≤ fuel) :
    ∃ t, Src.main env fuel = some (t, EXIT_SUCCESS) ∧
      Effect.createWindowCall 640 480 "Snek" ∈ t ∧
      clearCount t = 0 ∧ drawCount t = 0 := by
  obtain ⟨m, rfl⟩ : ∃ m, fuel = m + 1 := ⟨fuel - 1, by omega⟩
  refine ⟨[Effect.createWindowCall 640 480 "Snek", Effect.terminateCall], ?_, ?_, ?_, ?_⟩
  · simp [Src.main, h1, h2, h3, Src.loop, h4]
  · decide
  · rfl
  · rfl

/-- Claim C4 witness: the concrete environment envC4 whose flag is true at
every check, with fuel 1. -/
theorem C4_immediate_close_no_frames_witness :
    ∃ t, Src.main envC4 1 = some (t, EXIT_SUCCESS) ∧
      Effect.createWindowCall 640 480 "Snek" ∈ t ∧
      clearCount t = 0 ∧ drawCount t = 0 :=
  C4_immediate_close_no_frames envC4 1 rfl rfl rfl rfl (by decide)

/-- Claim C5: in both variants each of the three initialization failures
(windowing-provider init, window/context creation, graphics-entry-point
load) produces a logged message, no clear or draw call, and a non-zero exit
code. -/
theorem C5_init_failures_terminal (es : Src.Env) (eg : Game.Env) (fs fg : Nat) :
    (es.glfwInitOk = false → terminalFailureRun (Src.main es fs)) ∧
    (es.glfwInitOk = true → es.windowOk = false → terminalFailureRun (Src.main es fs)) ∧
    (es.glfwInitOk = true → es.windowOk = true → es.gladOk = false →
      terminalFailureRun (Src.main es fs)) ∧
    (eg.glfwInitOk = false → terminalFailureRun (Game.main eg fg)) ∧
    (eg.glfwInitOk = true → eg.windowOk = false → terminalFailureRun (Game.main eg fg)) ∧
    (eg.glfwInitOk = true → eg.windowOk = true → eg.gladOk = false →
      terminalFailureRun (Game.main eg fg)) := by
  refine ⟨fun h => ?_, fun ha hb => ?_, fun ha hb hc => ?_,
          fun h => ?_, fun ha hb => ?_, fun ha hb hc => ?_⟩
  · have he : Src.main es fs = some ([Effect.logOut "Unable to initialize GLFW!"], EXIT_FAILURE) := by
      simp [Src.main, h]
    exact ⟨_, _, he, by decide, by decide, by decide, by decide⟩
  · have he : Src.main es fs = some ([Effect.createWindowCall 640 480 "Snek",
        error_callback 404 "Window or OpenGL context creation failed!",
        Effect.terminateCall], EXIT_FAILURE) := by
      simp [Src.main, ha, hb]
    exact ⟨_, _, he, by decide, by decide, by decide, by decide⟩
  · have he : Src.main es fs = some ([Effect.createWindowCall 640 480 "Snek",
        error_callback 400 "Failed to initialize GLAD"], EXIT_FAILURE) := by
      simp [Src.main, ha, hb, hc]
    exact ⟨_, _, he, by decide, by decide, by decide, by decide⟩
  · have he : Game.main eg fg = some ([Effect.logOut "Unable to initialize GLFW!"], EXIT_FAILURE) := by
      simp [Game.main, h]
    exact ⟨_, _, he, by decide, by decide, by decide, by decide⟩
  · have he : Game.main eg fg = some ([Effect.createWindowCall Game.SCR_WIDTH Game.SCR_HEIGHT "2D Game",
        error_callback 404 "Window or OpenGL context creation failed!",
        Effect.terminateCall], -1) := by
      simp [Game.main, ha, hb]
    exact ⟨_, _, he, by decide, by decide, by decide, by decide⟩
  · have he : Game.main eg fg = some ([Effect.createWindowCall Game.SCR_WIDTH Game.SCR_HEIGHT "2D Game",
        error_callback 400 "Failed to initialize GLAD"], EXIT_FAILURE) := by
      simp [Game.main, ha, hb, hc]
    exact ⟨_, _, he, by decide, by decide, by decide, by decide⟩

/-- Claim C5 witness: the six concrete failing environments, one per
variant and failure stage. -/
theorem C5_init_failures_terminal_witness :
    terminalFailureRun (Src.main esInitFail 1) ∧
    terminalFailureRun (Src.main esWindowFail 1) ∧
    terminalFailureRun (Src.main esGladFail 1) ∧
    terminalFailureRun (Game.main egInitFail 1) ∧
    terminalFailureRun (Game.main egWindowFail 1) ∧
    terminalFailureRun (Game.main egGladFail 1) :=
  ⟨(C5_init_failures_terminal esInitFail egInitFail 1 1).1 rfl,
   (C5_init_failures_terminal esWindowFail egInitFail 1 1).2.1 rfl rfl,
   (C5_init_failures_terminal esGladFail egInitFail 1 1).2.2.1 rfl rfl rfl,
   (C5_init_failures_terminal esInitFail egInitFail 1 1).2.2.2.1 rfl,
   (C5_init_failures_terminal esInitFail egWindowFail 1 1).2.2.2.2.1 rfl rfl,
   (C5_init_failures_terminal esInitFail egGladFail 1 1).2.2.2.2.2 rfl rfl rfl⟩

/-- Claim C1 counterexample: with the vertex shader failing to compile and
everything else succeeding (egC1cex), one frame runs and the process exits
0: the exit code is 0 (not non-zero), one clear and one draw call are
issued (the render loop is entered), nothing is printed to the error
stream, and the diagnostic appears on standard output instead. -/
theorem C1_counterexample :
    (Game.main egC1cex 2).map
        (fun r => (r.2, clearCount r.1, drawCount r.1, errMsgs r.1, outMsgs r.1)) =
      some (0, 1, 1, [], ["ERROR::SHADER::VERTEX::COMPILATION_FAILED"]) := by
  decide

/-- Claim C1 (amended): a shader compilation or link failure detected at
startup of the shader variant is not fatal; the program prints the
human-readable diagnostic to standard output (not the error stream),
proceeds to the render loop, releases its resources and terminates with
exit code 0 exactly as in a fully successful run. -/
theorem C1_shader_failures_nonfatal (env : Game.Env) (fuel : Nat) (lt : List Effect)
    (h1 : env.glfwInitOk = true) (h2 : env.windowOk = true) (h3 : env.gladOk = true)
    (hloop : Game.gameLoop env.shouldClose 0 fuel = some lt) :
    ∃ t, Game.main env fuel = some (t, 0) ∧
      errMsgs t = [] ∧
      Effect.terminateCall ∈ t ∧
      (env.vertexCompileOk = false →
        "ERROR::SHADER::VERTEX::COMPILATION_FAILED" ∈ outMsgs t) ∧
      (env.fragmentCompileOk = false →
        "ERROR::SHADER::FRAGMENT::COMPILATION_FAILED" ∈ outMsgs t) ∧
      (env.linkOk = false →
        "ERROR::SHADER::PROGRAM::LINKING_FAILED" ∈ outMsgs t) := by
  have hmain : Game.main env fuel =
      some ([Effect.createWindowCall Game.SCR_WIDTH Game.SCR_HEIGHT "2D Game"]
              ++ Game.shaderSetup env ++ Game.bufferSetup ++ lt ++ Game.shutdown, 0) := by
    simp [Game.main, h1, h2, h3, hloop]
  obtain ⟨_, _, hle⟩ := Game.gameLoop_trace env.shouldClose fuel 0 lt hloop
  obtain ⟨_, _, hse, hv, hf, hl⟩ := Game.shaderSetup_facts env
  refine ⟨_, hmain, ?_, ?_, ?_, ?_, ?_⟩
  · simp only [errMsgs_append]
    rw [hse, hle]
    decide
  · exact List.mem_append_right _ (by decide)
  · intro hx
    simp only [outMsgs_append]
    exact List.mem_append_left _ (List.mem_append_left _ (List.mem_append_left _
      (List.mem_append_right _ (hv hx))))
  · intro hx
    simp only [outMsgs_append]
    exact List.mem_append_left _ (List.mem_append_left _ (List.mem_append_left _
      (List.mem_append_right _ (hf hx))))
  · intro hx
    simp only [outMsgs_append]
    exact List.mem_append_left _ (List.mem_append_left _ (List.mem_append_left _
      (List.mem_append_right _ (hl hx))))

/-- Claim C1 witness: the concrete environment egC1 in which all three
shader-stage checks fail, with the window closing before the first frame. -/
theorem C1_shader_failures_nonfatal_witness :
    ∃ t, Game.main egC1 1 = some (t, 0) ∧
      errMsgs t = [] ∧
      Effect.terminateCall ∈ t ∧
      (egC1.vertexCompileOk = false →
        "ERROR::SHADER::VERTEX::COMPILATION_FAILED" ∈ outMsgs t) ∧
      (egC1.fragmentCompileOk = false →
        "ERROR::SHADER::FRAGMENT::COMPILATION_FAILED" ∈ outMsgs t) ∧
      (egC1.linkOk = false →
        "ERROR::SHADER::PROGRAM::LINKING_FAILED" ∈ outMsgs t) :=
  C1_shader_failures_nonfatal egC1 1 [] rfl rfl rfl rfl

/-- Claim C3 counterexample: in the fully successful run egC3, the four
long-lived GPU resources are created in the order program, VAO, VBO, EBO
but released in the order VAO, VBO, EBO, program, which is not the reverse
of the creation order. -/
theorem C3_counterexample :
    (Game.main egC3 1).map
        (fun r => (gpuCreationsOf r.1, gpuReleasesOf r.1,
          decide (gpuReleasesOf r.1 = (gpuCreationsOf r.1).reverse))) =
      some ([Res.program, Res.vao, Res.vbo, Res.ebo],
            [Res.vao, Res.vbo, Res.ebo, Res.program], false) := by
  decide

/-- Claim C3 (amended): at shutdown of the shader variant each of the four
GPU resources created at startup is released exactly once, but not in
reverse-creation order: creation order is program, VAO, VBO, EBO while
release order is VAO, VBO, EBO, program. -/
theorem C3_release_once_not_reverse (env : Game.Env) (fuel : Nat) (lt : List Effect)
    (h1 : env.glfwInitOk = true) (h2 : env.windowOk = true) (h3 : env.gladOk = true)
    (hloop : Game.gameLoop env.shouldClose 0 fuel = some lt) :
    ∃ t, Game.main env fuel = some (t, 0) ∧
      gpuCreationsOf t = [Res.program, Res.vao, Res.vbo, Res.ebo] ∧
      gpuReleasesOf t = [Res.vao, Res.vbo, Res.ebo, Res.program] ∧
      (∀ r : Res, r.survivesSetup = true → (gpuReleasesOf t).count r = 1) := by
  have hmain : Game.main env fuel =
      some ([Effect.createWindowCall Game.SCR_WIDTH Game.SCR_HEIGHT "2D Game"]
              ++ Game.shaderSetup env ++ Game.bufferSetup ++ lt ++ Game.shutdown, 0) := by
    simp [Game.main, h1, h2, h3, hloop]
  obtain ⟨hlc, hlr, _⟩ := Game.gameLoop_trace env.shouldClose fuel 0 lt hloop
  obtain ⟨hsc, hsr, _, _, _, _⟩ := Game.shaderSetup_facts env
  have hcre : gpuCreationsOf ([Effect.createWindowCall Game.SCR_WIDTH Game.SCR_HEIGHT "2D Game"]
      ++ Game.shaderSetup env ++ Game.bufferSetup ++ lt ++ Game.shutdown)
      = [Res.program, Res.vao, Res.vbo, Res.ebo] := by
    simp only [gpuCreationsOf_append]
    rw [hsc, hlc]
    decide
  have hrel : gpuReleasesOf ([Effect.createWindowCall Game.SCR_WIDTH Game.SCR_HEIGHT "2D Game"]
      ++ Game.shaderSetup env ++ Game.bufferSetup ++ lt ++ Game.shutdown)
      = [Res.vao, Res.vbo, Res.ebo, Res.program] := by
    simp only [gpuReleasesOf_append]
    rw [hsr, hlr]
    decide
  refine ⟨_, hmain, hcre, hrel, ?_⟩
  intro r hr
  rw [hrel]
  revert hr
  cases r <;> decide

/-- Claim C3 witness: the concrete fully successful environment egC3 with
the window closing before the first frame. -/
theorem C3_release_once_not_reverse_witness :
    ∃ t, Game.main egC3 1 = some (t, 0) ∧
      gpuCreationsOf t = [Res.program, Res.vao, Res.vbo, Res.ebo] ∧
      gpuReleasesOf t = [Res.vao, Res.vbo, Res.ebo, Res.program] ∧
      (∀ r : Res, r.survivesSetup = true → (gpuReleasesOf t).count r = 1) :=
  C3_release_once_not_reverse egC3 1 [] rfl rfl rfl rfl
